import Mathlib

/-!
Verification of `src/calibre/ebooks/metadata/sources/search_engines.py`.

Shallow embedding: Python strings become `List Char`; Python exceptions become
`Except Unit`; the module-level `last_visited` dict and the monotonic clock are
passed explicitly to the model of `query`.  Scanning functions that consume an
unbounded amount of input per step take a fuel argument (always instantiated
with `length + 1`) so that every definition is structurally recursive and
kernel-evaluable.
-/

namespace SearchEngines

/-- Python strings, modelled as lists of unicode code points. -/
abbrev Str := List Char

/-- Shorthand turning a Lean string literal into the `Str` model. -/
def lit (s : String) : Str := s.data

/-- The double-quote character (U+0022). -/
def qc : Char := Char.ofNat 34

/-- Python `s.startswith(p)` for a one-character test: is the first character `c`? -/
def headIs (c : Char) : Str → Bool
  | [] => false
  | x :: _ => x = c

/-- Python `s.lower()` (ASCII case folding suffices for the tokens used here). -/
def pyLower (s : Str) : Str := s.map Char.toLower

/-- Python `s.partition(sep)[::2]` for a one-character separator: the text
before the first occurrence of `c` and the text after it (`(s, [])` when `c`
does not occur, matching `partition` returning `(s, '', '')`). -/
def pyPartition2 (c : Char) : Str → Str × Str
  | [] => ([], [])
  | x :: rest =>
    if x = c then ([], rest)
    else
      let p := pyPartition2 c rest
      (x :: p.1, p.2)

/-- Python `s.split(sep)` for a one-character separator (no collapsing of empty
fields; `''.split(sep) == ['']`). -/
def splitOnChar (c : Char) : Str → List Str
  | [] => [[]]
  | x :: rest =>
    let r := splitOnChar c rest
    if x = c then [] :: r
    else
      match r with
      | s :: ss => (x :: s) :: ss
      | [] => [[x]]

/-- Python `s.replace(pat, rep)` (all non-overlapping occurrences, left to
right), by fuel; `pyReplace` instantiates the fuel. -/
def pyReplaceFuel (pat rep : Str) : Nat → Str → Str
  | _, [] => []
  | 0, s => s
  | Nat.succ fuel, x :: rest =>
    if pat ≠ [] ∧ pat.isPrefixOf (x :: rest) then
      rep ++ pyReplaceFuel pat rep fuel (rest.drop (pat.length - 1))
    else
      x :: pyReplaceFuel pat rep fuel rest

/-- Python `s.replace(pat, rep)`. -/
def pyReplace (pat rep s : Str) : Str := pyReplaceFuel pat rep s.length s

/-- Source `ddg_term` (lines 101-107): strip double quotes, force-quote the
reserved DDG result-type keywords `map`/`news`, lower-case the boolean
operator tokens. -/
def ddg_term (t : Str) : Str :=
  let t1 := pyReplace [qc] [] t
  let t2 :=
    if pyLower t1 = lit "map" ∨ pyLower t1 = lit "news" then qc :: (t1 ++ [qc]) else t1
  if t2 = lit "OR" ∨ t2 = lit "AND" ∨ t2 = lit "NOT" then pyLower t2 else t2

/-- Source `bing_term` (lines 174-178): strip double quotes, lower-case the
boolean operator tokens. -/
def bing_term (t : Str) : Str :=
  let t1 := pyReplace [qc] [] t
  if t1 = lit "OR" ∨ t1 = lit "AND" ∨ t1 = lit "NOT" then pyLower t1 else t1

/-- Source `google_term` (lines 236-240): identical to `bing_term`. -/
def google_term (t : Str) : Str :=
  let t1 := pyReplace [qc] [] t
  if t1 = lit "OR" ∨ t1 = lit "AND" ∨ t1 = lit "NOT" then pyLower t1 else t1


/-! ### Python dicts as insertion-ordered association lists -/

/-- Lookup `m[k]`, returning `none` when the key is absent.  Keys are unique by
construction (`pyDictSet` updates in place), so first-match lookup is exact. -/
def pyDictGet {β : Type} : List (Str × β) → Str → Option β
  | [], _ => none
  | (k', v) :: rest, k => if k' = k then some v else pyDictGet rest k

/-- Assignment `m[k] = v`: update in place when the key is present (Python
dicts keep the original position), append otherwise. -/
def pyDictSet {β : Type} : List (Str × β) → Str → β → List (Str × β)
  | [], k, v => [(k, v)]
  | (k', v') :: rest, k, v =>
    if k' = k then (k', v) :: rest else (k', v') :: pyDictSet rest k v

/-! ### The throttled fetch stage (`query`, source lines 69-89)

`last_visited` is a module-level `defaultdict(lambda: 0)`; `monotonic()` is
called once before the throttle check (line 72) and once in the `finally`
block (line 83).  The model takes the map and the two clock readings
explicitly; the fetch (either `br.open_novisit(...)` or the injected
`simple_scraper`) is an injected `Except` value, and the decode/parse steps
are an injected pure function.  The `dump_raw`/`save_raw` diagnostics only
re-emit `raw` and are omitted. -/

/-- Outcome of one call of `query`: the value returned (or the propagated
fetch exception), the updated `last_visited` map, and how long the call slept
at the throttle (lines 72-74). -/
structure QueryOutcome (ε α : Type) where
  result : Except ε α
  lastVisited : List (Str × ℚ)
  sleptFor : ℚ

/-- The `query` function (source lines 69-89).  `tBefore` is the `monotonic()`
reading of line 72, `tAfter` the one of line 83; `fetch` is the outcome of the
network read, `parser` the composition of decoding and parsing. -/
def query {ε ρ α : Type} (lv : List (Str × ℚ)) (key : Str) (limit : ℚ)
    (tBefore tAfter : ℚ) (fetch : Except ε ρ) (parser : ρ → α) :
    QueryOutcome ε α :=
  let last := (pyDictGet lv key).getD 0
  let delta := tBefore - last
  let slept := if delta < limit ∧ 0 < delta then delta else 0
  let lv' := pyDictSet lv key tAfter
  ⟨fetch.map parser, lv', slept⟩

/-! ### Percent decoding (`urllib.parse.unquote` / `parse_qs`) -/

/-- Value of a hex digit, `none` for a non-hex character. -/
def hexVal (c : Char) : Option Nat :=
  if '0' ≤ c ∧ c ≤ '9' then some (c.toNat - '0'.toNat)
  else if 'a' ≤ c ∧ c ≤ 'f' then some (c.toNat - 'a'.toNat + 10)
  else if 'A' ≤ c ∧ c ≤ 'F' then some (c.toNat - 'A'.toNat + 10)
  else none

/-- UTF-8 encoding of one code point. -/
def charUtf8Bytes (c : Char) : List Nat :=
  let n := c.toNat
  if n < 0x80 then [n]
  else if n < 0x800 then [0xC0 + n / 64, 0x80 + n % 64]
  else if n < 0x10000 then [0xE0 + n / 4096, 0x80 + n / 64 % 64, 0x80 + n % 64]
  else [0xF0 + n / 262144, 0x80 + n / 4096 % 64, 0x80 + n / 64 % 64, 0x80 + n % 64]

/-- Is `n` a UTF-8 continuation byte (`0b10xxxxxx`)? -/
def isCont (n : Nat) : Bool := 0x80 ≤ n ∧ n < 0xC0

/-- The replacement character U+FFFD used by `errors='replace'` decoding. -/
def replChar : Char := Char.ofNat 0xFFFD

/-- UTF-8 decoding with replacement of malformed sequences (one replacement
character per bad leading byte, an approximation of CPython's
`errors='replace'`). Structural by fuel; each step consumes at least one
byte. -/
def utf8DecodeRepl : Nat → List Nat → Str
  | 0, _ => []
  | _ + 1, [] => []
  | fuel + 1, b :: rest =>
    if b < 0x80 then Char.ofNat b :: utf8DecodeRepl fuel rest
    else if b < 0xC0 then replChar :: utf8DecodeRepl fuel rest
    else if b < 0xE0 then
      match rest with
      | b1 :: rest1 =>
        if isCont b1 then
          Char.ofNat ((b - 0xC0) * 64 + (b1 - 0x80)) :: utf8DecodeRepl fuel rest1
        else replChar :: utf8DecodeRepl fuel rest
      | [] => [replChar]
    else if b < 0xF0 then
      match rest with
      | b1 :: b2 :: rest2 =>
        if isCont b1 ∧ isCont b2 then
          Char.ofNat ((b - 0xE0) * 4096 + (b1 - 0x80) * 64 + (b2 - 0x80)) ::
            utf8DecodeRepl fuel rest2
        else replChar :: utf8DecodeRepl fuel rest
      | _ => replChar :: utf8DecodeRepl fuel rest
    else
      match rest with
      | b1 :: b2 :: b3 :: rest3 =>
        if isCont b1 ∧ isCont b2 ∧ isCont b3 then
          Char.ofNat ((b - 0xF0) * 262144 + (b1 - 0x80) * 4096 + (b2 - 0x80) * 64
              + (b3 - 0x80)) :: utf8DecodeRepl fuel rest3
        else replChar :: utf8DecodeRepl fuel rest
      | _ => replChar :: utf8DecodeRepl fuel rest

/-- First pass of `unquote`: turn the text into a byte sequence, decoding each
`%XX` escape to the byte `XX`, optionally mapping `+` to a space (the
`parse_qs` convention), and emitting the UTF-8 bytes of every other
character. -/
def pctDecodeBytes (plusToSpace : Bool) : Nat → Str → List Nat
  | 0, _ => []
  | _ + 1, [] => []
  | fuel + 1, '%' :: h1 :: h2 :: rest =>
    match hexVal h1, hexVal h2 with
    | some a, some b => (a * 16 + b) :: pctDecodeBytes plusToSpace fuel rest
    | _, _ => charUtf8Bytes '%' ++ pctDecodeBytes plusToSpace fuel (h1 :: h2 :: rest)
  | fuel + 1, c :: rest =>
    if plusToSpace ∧ c = '+' then 0x20 :: pctDecodeBytes plusToSpace fuel rest
    else charUtf8Bytes c ++ pctDecodeBytes plusToSpace fuel rest

/-- Python `urllib.parse.unquote` with UTF-8/replace decoding. -/
def pyUnquote (s : Str) : Str :=
  let bs := pctDecodeBytes false (s.length + 1) s
  utf8DecodeRepl (bs.length + 1) bs

/-- The decoding applied by `parse_qs` to names and values (`+` means
space). -/
def pyUnquotePlus (s : Str) : Str :=
  let bs := pctDecodeBytes true (s.length + 1) s
  utf8DecodeRepl (bs.length + 1) bs

/-- Python `urllib.parse.parse_qsl` with default arguments: split the query string on
`&`, skip empty fields, skip fields without `=` and fields with an empty
value (`keep_blank_values=False`), percent-decode names and values. -/
def parseQsl (q : Str) : List (Str × Str) :=
  (splitOnChar '&' q).filterMap fun field =>
    if field = [] then none
    else
      if field.contains '=' then
        let p := pyPartition2 '=' field
        if p.2 = [] then none
        else some (pyUnquotePlus p.1, pyUnquotePlus p.2)
      else none

/-- Python `urllib.parse.parse_qs`: aggregate the `parse_qsl` pairs into a dict of
value lists, in first-appearance order. -/
def parseQs (q : Str) : List (Str × List Str) :=
  (parseQsl q).foldl
    (fun m p =>
      match pyDictGet m p.1 with
      | some vs => pyDictSet m p.1 (vs ++ [p.2])
      | none => pyDictSet m p.1 [p.2])
    []

/-- Source `ddg_href` (lines 110-114): a root-relative result href holds its
true target percent-encoded in the `uddg` query parameter; `parse_qs(q)['uddg']`
raises `KeyError` when the parameter is absent (modelled by `Except.error`). -/
def ddg_href (url : Str) : Except Unit Str :=
  if headIs '/' url then
    let q := (pyPartition2 '?' url).2
    match pyDictGet (parseQs q) (lit "uddg") with
    | some (v :: _) => .ok v
    | _ => .error ()
  else .ok url


/-! ### The parsed HTML document model

An lxml element: tag, attributes, direct text, children.  (Tail text is not
modelled; the xpath patterns used by the extractors never read it.) -/

inductive Elem : Type where
  | mk (tag : Str) (attrs : List (Str × Str)) (text : Str) (children : List Elem)

/-- The element's tag. -/
def Elem.tag : Elem → Str
  | .mk t _ _ _ => t

/-- The element's attribute list. -/
def Elem.attrs : Elem → List (Str × Str)
  | .mk _ a _ _ => a

/-- The element's direct text. -/
def Elem.text : Elem → Str
  | .mk _ _ x _ => x

/-- The element's children. -/
def Elem.children : Elem → List Elem
  | .mk _ _ _ c => c

mutual

/-- The element and all its descendants, in document order (the node set that
`//x` patterns filter). -/
def allNodes : Elem → List Elem
  | .mk t a x c => .mk t a x c :: allNodesList c

/-- Function `allNodes` over a forest. -/
def allNodesList : List Elem → List Elem
  | [] => []
  | e :: es => allNodes e ++ allNodesList es

end

/-- The strict descendants of an element (the node set `descendant::` patterns
filter). -/
def descendants (e : Elem) : List Elem := allNodesList e.children

mutual

/-- Source `tostring(elem)` (lines 34-35): the concatenated text content of the
subtree (`method='text', with_tail=False`). -/
def tostring : Elem → Str
  | .mk _ _ x c => x ++ tostringList c

/-- Function `tostring` over a forest. -/
def tostringList : List Elem → Str
  | [] => []
  | e :: es => tostring e ++ tostringList es

end

/-- Python `e.get(name)`: first binding of the attribute, if any. -/
def getAttr (e : Elem) (name : Str) : Option Str :=
  pyDictGet e.attrs name

/-- Does the element carry the attribute (xpath `[@name]`)? -/
def hasAttr (e : Elem) (name : Str) : Bool :=
  (getAttr e name).isSome

/-- Xpath `[@name="val"]`: exact attribute-value test. -/
def attrIs (e : Elem) (name val : Str) : Bool :=
  getAttr e name = some val

/-- Expression `' '.join(root.xpath('//title/text()'))` (source lines 219 and 295): the
direct texts of all `title` elements, space-joined. -/
def titleText (root : Elem) : Str :=
  List.intercalate [' ']
    (((allNodes root).filter (fun e => e.tag = lit "title")).map Elem.text)

/-- The `Result` namedtuple (source line 31). -/
structure SResult where
  url : Str
  title : Str
  cached_url : Option Str

/-- The diagnostic log lines emitted by the extractors. -/
inductive LogMsg : Type where
  /-- Message `'Ignoring {!r} as it has no cached page'` (source lines 212 and 290). -/
  | noCachedPage (title : Str)
  /-- Message `'Ignoring div with no main result link'` (source line 280). -/
  | noMainLink
  /-- Message `'Failed to find any results on results page, with title:'` plus the
  page title (source lines 220 and 296). -/
  | noResults (title : Str)

/-! ### DDG extraction (`ddg_search`, source lines 154-158) -/

/-- The anchors matched by
`//*[@class="results"]//*[@class="result__title"]/a[@href and @class="result__a"]`. -/
def ddgAnchors (root : Elem) : List Elem :=
  (((allNodes root).filter (fun e => attrIs e (lit "class") (lit "results"))).flatMap
      (fun r => (descendants r).filter
        (fun t => attrIs t (lit "class") (lit "result__title")))).flatMap
    (fun t => t.children.filter
      (fun a => a.tag = lit "a" ∧ hasAttr a (lit "href")
        ∧ attrIs a (lit "class") (lit "result__a")))

/-- The DDG result loop: each anchor contributes
`Result(ddg_href(a.get('href')), tostring(a), None)`; a `KeyError` from
`ddg_href` aborts the whole extraction. -/
def ddg_items : List Elem → Except Unit (List SResult)
  | [] => .ok []
  | a :: rest =>
    match ddg_href ((getAttr a (lit "href")).getD []) with
    | .error e => .error e
    | .ok u =>
      match ddg_items rest with
      | .error e => .error e
      | .ok rs => .ok (⟨u, tostring a, none⟩ :: rs)

/-- The extraction portion of `ddg_search` (source lines 154-158): build the
result list from the matched anchors.  Note there is no empty-result title
diagnostic in this backend, so the log component is always empty. -/
def ddg_search_results (root : Elem) : Except Unit (List SResult × List LogMsg) :=
  match ddg_items (ddgAnchors root) with
  | .error e => .error e
  | .ok rs => .ok (rs, [])

/-! ### Bing extraction (`bing_search`, source lines 204-221) -/

/-- The result items: `//*[@id="b_results"]/li[@class="b_algo"]`. -/
def bingResultLis (root : Elem) : List Elem :=
  ((allNodes root).filter (fun e => attrIs e (lit "id") (lit "b_results"))).flatMap
    (fun e => e.children.filter
      (fun li => li.tag = lit "li" ∧ attrIs li (lit "class") (lit "b_algo")))

/-- The title anchors of one item:
`li.xpath('descendant::h2/a[@href]') or li.xpath('descendant::div[@class="b_algoheader"]/a[@href]')`
(Python `or`: the second list is used only when the first is empty). -/
def bingTitleAnchors (li : Elem) : List Elem :=
  let prim := ((descendants li).filter (fun h => h.tag = lit "h2")).flatMap
    (fun h => h.children.filter (fun a => a.tag = lit "a" ∧ hasAttr a (lit "href")))
  match prim with
  | _ :: _ => prim
  | [] =>
    ((descendants li).filter
        (fun d => d.tag = lit "div" ∧ attrIs d (lit "class") (lit "b_algoheader"))).flatMap
      (fun d => d.children.filter (fun a => a.tag = lit "a" ∧ hasAttr a (lit "href")))

/-- Xpath `descendant::div[@class="b_attribution" and @u]`. -/
def bingAttributionDivs (li : Elem) : List Elem :=
  (descendants li).filter
    (fun d => d.tag = lit "div" ∧ attrIs d (lit "class") (lit "b_attribution")
      ∧ hasAttr d (lit "u"))

/-- The bing cache-URL template (source lines 215-216). -/
def bingCacheUrl (q d w : Str) : Str :=
  lit "https://cc.bingj.com/cache.aspx?q=" ++ q ++ lit "&d=" ++ d ++
    lit "&mkt=en-US&setlang=en-US&w=" ++ w

/-- One iteration of the bing result loop (source lines 205-217).
`a = a[0]` raises `IndexError` when both anchor patterns are empty (modelled
by `Except.error`); a missing attribution div is caught and turned into a
skip-with-log; `d, w = div.get('u').split('|')[-2:]` raises `ValueError` when
the attribute has fewer than two `|`-separated fields. -/
def bing_process_li (q : Str) (li : Elem) :
    Except Unit (Option SResult × List LogMsg) :=
  match bingTitleAnchors li with
  | [] => .error ()
  | a :: _ =>
    let title := tostring a
    match bingAttributionDivs li with
    | [] => .ok (none, [.noCachedPage title])
    | d :: _ =>
      let u := (getAttr d (lit "u")).getD []
      match (splitOnChar '|' u).reverse with
      | w :: dd :: _ =>
        .ok (some ⟨(getAttr a (lit "href")).getD [], title, some (bingCacheUrl q dd w)⟩, [])
      | _ => .error ()

/-- The bing result loop folded over all items. -/
def bing_items (q : Str) : List Elem → Except Unit (List SResult × List LogMsg)
  | [] => .ok ([], [])
  | li :: rest =>
    match bing_process_li q li with
    | .error e => .error e
    | .ok (r, lg) =>
      match bing_items q rest with
      | .error e => .error e
      | .ok (rs, lgs) =>
        .ok ((match r with | some x => x :: rs | none => rs), lg ++ lgs)

/-- The extraction portion of `bing_search` (source lines 204-221): the item
loop followed by the empty-result title diagnostic (lines 218-220). -/
def bing_search_results (q : Str) (root : Elem) :
    Except Unit (List SResult × List LogMsg) :=
  match bing_items q (bingResultLis root) with
  | .error e => .error e
  | .ok (ans, lg) =>
    if ans.isEmpty then .ok (ans, lg ++ [.noResults (titleText root)])
    else .ok (ans, lg)

/-! ### Google cache-URL raw-text scan (`google_extract_cache_urls`, lines 247-269)

The regex `\\x22(https://webcache\.googleusercontent\.com/.+?)\\x22` matches
the four literal characters `\x22`, then the fixed head of the cache host,
then a shortest nonempty newline-free run up to the next literal `\x22`; the
captured group is the head plus that run. -/

/-- The literal escape `\x22` as it appears in the raw response text. -/
def qEsc : Str := lit "\\x22"

/-- The fixed head of a captured cache URL. -/
def webcacheHead : Str := lit "https://webcache.googleusercontent.com/"

/-- Scan for the closing `\x22` after at least one captured character,
failing on a newline or the end of input (the regex `.+?` with a following
literal).  Returns the captured run and the text after the closing escape. -/
def googleCaptureTail (acc : Str) : Nat → Str → Option (Str × Str)
  | 0, _ => none
  | fuel + 1, s =>
    match s with
    | [] => none
    | c :: rest =>
      if c = '\n' then none
      else if qEsc.isPrefixOf (c :: rest) then some (acc.reverse, (c :: rest).drop 4)
      else googleCaptureTail (c :: acc) fuel rest

/-- Model of `pat.finditer(raw)`: the list of captured groups, non-overlapping, in
document order.  When the head matches but no closing escape follows, the
scan resumes one character later, as regex retry does. -/
def googlePatFind : Nat → Str → List Str
  | 0, _ => []
  | fuel + 1, s =>
    match s with
    | [] => []
    | c :: rest =>
      if (qEsc ++ webcacheHead).isPrefixOf (c :: rest) then
        match (c :: rest).drop (qEsc ++ webcacheHead).length with
        | [] => googlePatFind fuel rest
        | d :: after0 =>
          if d = '\n' then googlePatFind fuel rest
          else
            match googleCaptureTail [d] fuel after0 with
            | some (tail, after) => (webcacheHead ++ tail) :: googlePatFind fuel after
            | none => googlePatFind fuel rest
      else googlePatFind fuel rest

/-- Model of `upat.sub(urepl, s)`: replace every `\\uXXXX` escape (two literal
backslashes, `u`, four hex digits) by `chr(int(XXXX, 16))`. -/
def upatSub : Nat → Str → Str
  | 0, s => s
  | _ + 1, [] => []
  | fuel + 1, s =>
    match s with
    | '\\' :: '\\' :: 'u' :: h1 :: h2 :: h3 :: h4 :: rest =>
      match hexVal h1, hexVal h2, hexVal h3, hexVal h4 with
      | some a, some b, some c, some d =>
        Char.ofNat (((a * 16 + b) * 16 + c) * 16 + d) :: upatSub fuel rest
      | _, _, _, _ =>
        match s with
        | [] => []
        | x :: xs => x :: upatSub fuel xs
    | _ =>
      match s with
      | [] => []
      | x :: xs => x :: upatSub fuel xs

/-- Model of `cache_pat.search(s)` for `cache:([^:]+):(.+)`: the leftmost occurrence of
`cache:` followed by a nonempty colon-free run, a colon, and at least one
further non-newline character; returns the two groups (`[^:]+` is effectively
maximal because it cannot cross the delimiting colon; `.+` is the greedy rest
of the line). -/
def cachePatSearch : Nat → Str → Option (Str × Str)
  | 0, _ => none
  | fuel + 1, s =>
    match s with
    | [] => none
    | _ :: rest =>
      if (lit "cache:").isPrefixOf s then
        let afterLitC := s.drop 6
        let g1 := afterLitC.takeWhile (fun c => c ≠ ':')
        let afterG1 := afterLitC.drop g1.length
        match g1, afterG1 with
        | _ :: _, ':' :: afterColon =>
          match afterColon.takeWhile (fun c => c ≠ '\n') with
          | [] => cachePatSearch fuel rest
          | g2 => some (g1, g2)
        | _, _ => cachePatSearch fuel rest
      else cachePatSearch fuel rest

/-- The body of the `google_extract_cache_urls` loop (source lines 257-269):
`seen` is the set of cache identifiers already kept, `ans` the dict being
built.  A capture in which `cache_pat` finds nothing makes `m.group(1)` raise
`AttributeError` (modelled by `Except.error`); a repeated cache identifier is
skipped; otherwise the source URL is cut at the first `+`, percent-decoded,
and mapped to the cache URL. -/
def gecuLoop (seen : List Str) (ans : List (Str × Str)) :
    List Str → Except Unit (List (Str × Str))
  | [] => .ok ans
  | g :: rest =>
    let cache_url := upatSub (g.length + 1) g
    match cachePatSearch (cache_url.length + 1) cache_url with
    | none => .error ()
    | some (cache_id, src0) =>
      if seen.contains cache_id then gecuLoop seen ans rest
      else
        let src_url := pyUnquote ((splitOnChar '+' src0).headD [])
        gecuLoop (cache_id :: seen) (pyDictSet ans src_url cache_url) rest

/-- Source `google_extract_cache_urls` (lines 247-269). -/
def google_extract_cache_urls (raw : Str) : Except Unit (List (Str × Str)) :=
  gecuLoop [] [] (googlePatFind (raw.length + 1) raw)

/-! ### Google DOM extraction (`google_parse_results`, source lines 272-297) -/

/-- Xpath `//*[@id="search"]//*[@id="rso"]//div[descendant::h3]`. -/
def googleResultDivs (root : Elem) : List Elem :=
  ((((allNodes root).filter (fun e => attrIs e (lit "id") (lit "search"))).flatMap
      (fun e => (descendants e).filter (fun r => attrIs r (lit "id") (lit "rso")))).flatMap
    (fun r => (descendants r).filter
      (fun d => d.tag = lit "div"
        ∧ (descendants d).any (fun h => h.tag = lit "h3"))))

/-- Xpath `div.xpath('descendant::a[@href]')`. -/
def googleMainAnchors (div : Elem) : List Elem :=
  (descendants div).filter (fun a => a.tag = lit "a" ∧ hasAttr a (lit "href"))

/-- Xpath `div.xpath('descendant::*[@role="menuitem"]//a[@class="fl"]')`. -/
def googleMenuAnchors (div : Elem) : List Elem :=
  ((descendants div).filter (fun m => attrIs m (lit "role") (lit "menuitem"))).flatMap
    (fun m => (descendants m).filter
      (fun a => a.tag = lit "a" ∧ attrIs a (lit "class") (lit "fl")))

/-- One iteration of the google result loop (source lines 276-293): a div
with no link anchor is skipped with a log; a div whose URL is absent from the
cache map and which has no menu-item fallback anchor is skipped with a log;
in no case does the iteration raise. -/
def google_process_div (cmap : List (Str × Str)) (div : Elem) :
    Option SResult × List LogMsg :=
  match googleMainAnchors div with
  | [] => (none, [.noMainLink])
  | a :: _ =>
    let title := tostring a
    let src_url := (getAttr a (lit "href")).getD []
    match pyDictGet cmap src_url with
    | some cu => (some ⟨src_url, title, some cu⟩, [])
    | none =>
      match googleMenuAnchors div with
      | [] => (none, [.noCachedPage title])
      | c :: _ => (some ⟨src_url, title, some ((getAttr c (lit "href")).getD [])⟩, [])

/-- The google result loop folded over all divs. -/
def google_walk (cmap : List (Str × Str)) :
    List Elem → List SResult × List LogMsg
  | [] => ([], [])
  | div :: rest =>
    let p := google_process_div cmap div
    let w := google_walk cmap rest
    ((match p.1 with | some x => x :: w.1 | none => w.1), p.2 ++ w.2)

/-- Source `google_parse_results` (lines 272-297): the raw-text scan (whose
`AttributeError` propagates), the DOM walk, then the empty-result title
diagnostic (lines 294-296). -/
def google_parse_results (root : Elem) (raw : Str) :
    Except Unit (List SResult × List LogMsg) :=
  match google_extract_cache_urls raw with
  | .error e => .error e
  | .ok cmap =>
    let w := google_walk cmap (googleResultDivs root)
    if w.1.isEmpty then .ok (w.1, w.2 ++ [.noResults (titleText root)])
    else .ok (w.1, w.2)

/-! ### Wayback availability lookup (`wayback_machine_cached_url`, lines 117-129) -/

/-- A decoded JSON value (`json.loads` output).  Object fields model a parsed
dict, so keys are unique. -/
inductive JVal : Type where
  | jnull
  | jbool (b : Bool)
  | jnum (q : ℚ)
  | jstr (s : Str)
  | jarr (xs : List JVal)
  | jobj (fields : List (Str × JVal))

/-- Indexing `data[k]`: `KeyError` on a missing key, `TypeError` on a non-object, both
modelled by `Except.error` (the source catches every exception alike). -/
def jGet (v : JVal) (k : Str) : Except Unit JVal :=
  match v with
  | .jobj fields =>
    match pyDictGet fields k with
    | some x => .ok x
    | none => .error ()
  | _ => .error ()

/-- Python truthiness of a JSON value (`if closest['available']:`). -/
def jTruthy : JVal → Bool
  | .jnull => false
  | .jbool b => b
  | .jnum q => decide (q ≠ 0)
  | .jstr s => !s.isEmpty
  | .jarr xs => !xs.isEmpty
  | .jobj fs => !fs.isEmpty

/-- The `try` block of `wayback_machine_cached_url` (source lines 122-127):
walk `data['archived_snapshots']['closest']`, test `closest['available']`,
and on success return `closest['url'].replace('http:', 'https:')`.  A missing
key, a non-object step, or a non-string `url` (whose `.replace` would raise
`AttributeError`) becomes `Except.error`; a falsy `available` falls through
to `ok none`. -/
def waybackTry (data : JVal) : Except Unit (Option Str) :=
  match jGet data (lit "archived_snapshots") with
  | .error e => .error e
  | .ok snaps =>
    match jGet snaps (lit "closest") with
    | .error e => .error e
    | .ok closest =>
      match jGet closest (lit "available") with
      | .error e => .error e
      | .ok av =>
        if jTruthy av then
          match jGet closest (lit "url") with
          | .ok (.jstr s) => .ok (some (pyReplace (lit "http:") (lit "https:") s))
          | _ => .error ()
        else .ok none

/-- Source `wayback_machine_cached_url` after the fetch (source lines 122-129): any
exception in the `try` block is swallowed, and every path that does not
return a snapshot URL logs the full response (`log('Response from wayback
machine:', pformat(data))`, modelled by recording `data`). -/
def wayback_machine_cached_url (data : JVal) : Option Str × List JVal :=
  match waybackTry data with
  | .ok (some u) => (some u, [])
  | _ => (none, [data])

/-! ### `resolve_url` and the URL processors (source lines 132-141, 181-182,
335-341) -/

/-- Source `bing_url_processor` (lines 181-182): identity. -/
def bing_url_processor (url : Str) : Str := url

/-- Source `google_url_processor` (lines 243-244): identity. -/
def google_url_processor (url : Str) : Str := url

/-- Model of `re.search('https?:', url)`: the position of the leftmost occurrence of
`http:` or `https:`. -/
def reSearchHttp : Nat → Str → Option Nat
  | 0, _ => none
  | fuel + 1, s =>
    match s with
    | [] => none
    | _ :: rest =>
      if (lit "http:").isPrefixOf s ∨ (lit "https:").isPrefixOf s then some 0
      else (reSearchHttp fuel rest).map (· + 1)

/-- Source `wayback_url_processor` (lines 132-141): a root-relative remainder
is rewritten to the suffix starting at the first embedded `http:`/`https:`
occurrence, or prefixed with the fixed archive host when none exists. -/
def wayback_url_processor (url : Str) : Str :=
  if headIs '/' url then
    match reSearchHttp (url.length + 1) url with
    | none => lit "https://web.archive.org" ++ url
    | some i => url.drop i
  else url

/-- Source `resolve_url` (lines 335-341): dispatch on the text before the
first colon. -/
def resolve_url (url : Str) : Str :=
  let p := pyPartition2 ':' url
  if p.1 = lit "bing" then bing_url_processor p.2
  else if p.1 = lit "wayback" then wayback_url_processor p.2
  else url


/-! ### Spec-side characterizations and concrete sample inputs -/

/-- The cache identifier a captured group would yield in the
`google_extract_cache_urls` loop (after the unicode-unescape pass). -/
def matchCacheId (g : Str) : Option Str :=
  (cachePatSearch ((upatSub (g.length + 1) g).length + 1)
      (upatSub (g.length + 1) g)).map Prod.fst

/-- Spec-side first-occurrence deduplication of a capture list by cache
identifier, relative to the identifiers already seen: a capture whose
identifier already occurred (earlier in the list or in `seen`) is dropped. -/
def dedupFirstByCacheId (seen : List Str) : List Str → List Str
  | [] => []
  | g :: rest =>
    match matchCacheId g with
    | none => g :: dedupFirstByCacheId seen rest
    | some cid =>
      if seen.contains cid then dedupFirstByCacheId seen rest
      else g :: dedupFirstByCacheId (cid :: seen) rest

/-- Spec-side shape predicate for the wayback availability response: the
response carries `archived_snapshots.closest`, its `available` field is
truthy, and its `url` field is the string `u`. -/
def availableSnapshot (data : JVal) (u : Str) : Prop :=
  ∃ snaps closest av,
    jGet data (lit "archived_snapshots") = .ok snaps ∧
    jGet snaps (lit "closest") = .ok closest ∧
    jGet closest (lit "available") = .ok av ∧
    jTruthy av = true ∧
    jGet closest (lit "url") = .ok (.jstr u)

/-- Convenience constructor for sample documents. -/
def mkE (tag : String) (attrs : List (String × String)) (text : String)
    (children : List Elem) : Elem :=
  .mk (lit tag) (attrs.map (fun p => (lit p.1, lit p.2))) (lit text) children

/-- A bing results page whose single result item has neither
`descendant::h2/a[@href]` nor the `b_algoheader` fallback anchor. -/
def bingBrokenDoc : Elem :=
  mkE "html" [] "" [
    mkE "title" [] "Bing page" [],
    mkE "ol" [("id", "b_results")] "" [
      mkE "li" [("class", "b_algo")] "" [mkE "span" [] "no anchors here" []]]]

/-- A title anchor for `bingSkipLi`. -/
def bingSkipAnchor : Elem :=
  mkE "a" [("href", "https://x.example/1")] "Result one" []

/-- A bing result item with a title anchor but no `b_attribution` div. -/
def bingSkipLi : Elem :=
  mkE "li" [("class", "b_algo")] "" [mkE "h2" [] "" [bingSkipAnchor]]

/-- A google result block with a heading but no anchor at all. -/
def googleSkipDiv : Elem :=
  mkE "div" [] "" [mkE "h3" [] "heading" []]

/-- A page with a `<title>` but zero matching result elements for any of the
three backends. -/
def emptyResultsDoc : Elem :=
  mkE "html" [] "" [mkE "head" [] "" [mkE "title" [] "No results" []]]

/-- A DDG result anchor whose root-relative href has no `uddg` parameter. -/
def ddgBadAnchor : Elem :=
  mkE "a" [("href", "/l/?kh=-1"), ("class", "result__a")] "Bad" []

/-- A DDG results page whose single result anchor has a root-relative href
with no `uddg` parameter. -/
def ddgBadDoc : Elem :=
  mkE "html" [] "" [
    mkE "div" [("class", "results")] "" [
      mkE "div" [("class", "result__title")] "" [ddgBadAnchor]]]

/-- The crafted availability response of the spec:
`{"archived_snapshots": {"closest": {"available": true, "url":
"http://web.archive.org/abc"}}}`. -/
def waybackAvailSample : JVal :=
  .jobj [(lit "archived_snapshots", .jobj [(lit "closest", .jobj
    [(lit "available", .jbool true),
     (lit "url", .jstr (lit "http://web.archive.org/abc"))])])]

/-- An availability response whose snapshot URL embeds the original page URL
after the timestamp. -/
def waybackEmbeddedSample : JVal :=
  .jobj [(lit "archived_snapshots", .jobj [(lit "closest", .jobj
    [(lit "available", .jbool true),
     (lit "url", .jstr (lit "http://web.archive.org/web/2020/http://example.com"))])])]

/-! ## Theorems -/

/-- Looking up a key right after setting it yields the value just written. -/
theorem pyDictGet_set_self {β : Type} (m : List (Str × β)) (k : Str) (v : β) :
    pyDictGet (pyDictSet m k v) k = some v := by
  induction m with
  | nil => simp [pyDictSet, pyDictGet]
  | cons p rest ih =>
    by_cases h : p.1 = k
    · simp [pyDictSet, pyDictGet, h]
    · simp [pyDictSet, pyDictGet, h, ih]

/-- Claim C1: the spec says the throttled fetch sleeps
`min_interval - (now - last)` when `0 < now - last < min_interval`, so that
two sequential fetches on one key are at least `min_interval` apart.  The
code (line 74) sleeps `delta = now - last` instead: with `last = 0`,
`now = 1/4` and `min_interval = 1` it sleeps `1/4` (not the `3/4` the spec
states), and the second fetch starts only `1/2` after the end of the first —
below the minimum interval. -/
theorem query_sleeps_delta_not_remaining_interval :
    (query ([] : List (Str × ℚ)) (lit "google") 1 (1/4 : ℚ) (1/2)
        (Except.ok () : Except Unit Unit) (fun r : Unit => r)).sleptFor = 1/4
    ∧ (query ([] : List (Str × ℚ)) (lit "google") 1 (1/4 : ℚ) (1/2)
        (Except.ok () : Except Unit Unit) (fun r : Unit => r)).sleptFor ≠ 1 - 1/4
    ∧ (1/4 : ℚ) +
        (query ([] : List (Str × ℚ)) (lit "google") 1 (1/4 : ℚ) (1/2)
          (Except.ok () : Except Unit Unit) (fun r : Unit => r)).sleptFor < 1 := by
  refine ⟨?_, ?_, ?_⟩ <;> norm_num [query, pyDictGet]

/-- Claim C4: for every key and fetch attempt, `query` writes the
post-attempt clock reading as the key's new last-access time even when the
fetch raises, and the exception still propagates to the caller (the
`try`/`finally` of source lines 75-83). -/
theorem query_updates_last_visited_even_on_error {ε ρ α : Type}
    (lv : List (Str × ℚ)) (key : Str) (limit t1 t2 : ℚ) (parser : ρ → α) :
    (∀ fetch : Except ε ρ,
      pyDictGet (query lv key limit t1 t2 fetch parser).lastVisited key = some t2)
    ∧ (∀ e : ε,
      (query lv key limit t1 t2 (Except.error e) parser).result = Except.error e) := by
  constructor
  · intro fetch
    simpa [query] using pyDictGet_set_self lv key t2
  · intro e
    rfl

/-- Claim C5 counterexample: the claim says a term containing embedded double
quotes maps to the same term with the quotes removed; but quote stripping
happens before the operator check, so the term `"OR"` maps to `or`, not to
the quote-stripped `OR`. -/
theorem bing_term_quoted_operator_is_lowered :
    bing_term (qc :: lit "OR" ++ [qc]) = lit "or" ∧ lit "or" ≠ lit "OR" := by
  decide

/-- A string starting with a double quote is none of the operator tokens. -/
theorem qc_cons_ne_ops (s : Str) :
    qc :: s ≠ lit "OR" ∧ qc :: s ≠ lit "AND" ∧ qc :: s ≠ lit "NOT" := by
  refine ⟨fun h => ?_, fun h => ?_, fun h => ?_⟩ <;>
    · injection h with h1 _
      exact absurd h1 (by decide)

/-- Claim C5 as amended: each sanitizer first strips all double quotes; the
reserved-operator lower-casing (and, for DDG, the `map`/`news` force-quoting)
then applies to the quote-stripped term.  In particular a term equal to
`OR`/`AND`/`NOT` is lower-cased, and a term containing quotes maps to its
quote-stripped form unless the stripped form itself collides with a reserved
token. -/
theorem sanitizers_strip_then_keyword (t : Str) :
    (ddg_term t =
      (let s := pyReplace [qc] [] t
       if pyLower s = lit "map" ∨ pyLower s = lit "news" then qc :: (s ++ [qc])
       else if s = lit "OR" ∨ s = lit "AND" ∨ s = lit "NOT" then pyLower s else s))
    ∧ (bing_term t =
      (let s := pyReplace [qc] [] t
       if s = lit "OR" ∨ s = lit "AND" ∨ s = lit "NOT" then pyLower s else s))
    ∧ (google_term t =
      (let s := pyReplace [qc] [] t
       if s = lit "OR" ∨ s = lit "AND" ∨ s = lit "NOT" then pyLower s else s)) := by
  refine ⟨?_, rfl, rfl⟩
  show ddg_term t = _
  unfold ddg_term
  set s := pyReplace [qc] [] t with hs
  by_cases hm : pyLower s = lit "map" ∨ pyLower s = lit "news"
  · simp only [hm, if_true, if_pos]
    have hne := qc_cons_ne_ops (s ++ [qc])
    rw [if_neg]
    rintro (h | h | h)
    · exact hne.1 h
    · exact hne.2.1 h
    · exact hne.2.2 h
  · simp only [hm, if_false, if_neg]

/-- Claim C2 counterexample: the claim says no backend's extractor raises on a
candidate with a missing expected sub-element, but on a bing page whose
result item lacks a title anchor under both recognized patterns, the
unguarded `a = a[0]` (source line 207) raises `IndexError` and aborts the
whole extraction. -/
theorem bing_extraction_raises_without_title_anchor :
    bing_search_results (lit "q") bingBrokenDoc = Except.error () := rfl

/-- Claim C2 as amended: a missing *cache* sub-element is skipped with a
diagnostic log and extraction continues — bing skips an item lacking the
`b_attribution` div, google skips a block lacking a main result link and a
block whose URL has neither a cache-map entry nor a menu-item fallback link —
but a bing item lacking a title anchor raises (previous theorem). -/
theorem extractors_skip_missing_cache_elements :
    (∀ q li a as, bingTitleAnchors li = a :: as → bingAttributionDivs li = [] →
      bing_process_li q li = .ok (none, [.noCachedPage (tostring a)]))
    ∧ (∀ cmap div divs, googleMainAnchors div = [] →
      google_walk cmap (div :: divs) =
        ((google_walk cmap divs).1, .noMainLink :: (google_walk cmap divs).2))
    ∧ (∀ cmap div divs a as, googleMainAnchors div = a :: as →
      pyDictGet cmap ((getAttr a (lit "href")).getD []) = none →
      googleMenuAnchors div = [] →
      google_walk cmap (div :: divs) =
        ((google_walk cmap divs).1,
          .noCachedPage (tostring a) :: (google_walk cmap divs).2)) := by
  refine ⟨?_, ?_, ?_⟩
  · intro q li a as h1 h2
    simp [bing_process_li, h1, h2]
  · intro cmap div divs h1
    simp [google_walk, google_process_div, h1]
  · intro cmap div divs a as h1 h2 h3
    simp [google_walk, google_process_div, h1, h2, h3]

/-- Witness for the amended claim C2, at a concrete bing item lacking the
attribution div and a concrete google block lacking a main link. -/
theorem extractors_skip_missing_cache_elements_witness :
    bing_process_li (lit "q") bingSkipLi = .ok (none, [.noCachedPage (lit "Result one")])
    ∧ google_walk [] [googleSkipDiv] = ([], [.noMainLink]) := by
  constructor
  · exact extractors_skip_missing_cache_elements.1 (lit "q") bingSkipLi
      bingSkipAnchor [] rfl rfl
  · exact extractors_skip_missing_cache_elements.2.1 [] googleSkipDiv [] rfl

/-- Claim C3 counterexample: the claim covers all three backends, but the DDG
extractor has no empty-result diagnostic at all — on a parsed document with a
`<title>` and zero matching result elements it returns an empty sequence with
an empty log, so the title is logged zero times, not exactly once. -/
theorem ddg_empty_results_logs_no_title :
    ddg_search_results emptyResultsDoc = .ok ([], [])
    ∧ titleText emptyResultsDoc = lit "No results" := by
  exact ⟨rfl, rfl⟩

/-- Claim C3 as amended: on a parsed document with zero matching result
elements, the bing and google extractors return an empty sequence and log the
document's `<title>` text exactly once (their log is exactly the one
`noResults` entry); the DDG extractor returns an empty sequence without any
title diagnostic. -/
theorem empty_results_title_diagnostic :
    (∀ q root, bingResultLis root = [] →
      bing_search_results q root = .ok ([], [.noResults (titleText root)]))
    ∧ (∀ root raw cmap, google_extract_cache_urls raw = .ok cmap →
      googleResultDivs root = [] →
      google_parse_results root raw = .ok ([], [.noResults (titleText root)]))
    ∧ (∀ root, ddgAnchors root = [] →
      ddg_search_results root = .ok ([], [])) := by
  refine ⟨?_, ?_, ?_⟩
  · intro q root h
    simp [bing_search_results, h, bing_items]
  · intro root raw cmap h1 h2
    simp [google_parse_results, h1, h2, google_walk]
  · intro root h
    simp [ddg_search_results, h, ddg_items]

/-- Witness for the amended claim C3, at a concrete titled page with zero
matching result elements for every backend (with an empty raw text for the
google cache scan). -/
theorem empty_results_title_diagnostic_witness :
    bing_search_results (lit "q") emptyResultsDoc =
      .ok ([], [.noResults (lit "No results")])
    ∧ google_parse_results emptyResultsDoc [] =
      .ok ([], [.noResults (lit "No results")])
    ∧ ddg_search_results emptyResultsDoc = .ok ([], []) := by
  refine ⟨?_, ?_, ?_⟩
  · exact empty_results_title_diagnostic.1 (lit "q") emptyResultsDoc rfl
  · exact empty_results_title_diagnostic.2.1 emptyResultsDoc [] [] rfl rfl
  · exact empty_results_title_diagnostic.2.2 emptyResultsDoc rfl

/-- Dropping the later captures whose cache identifier was already seen does
not change the outcome of the `google_extract_cache_urls` loop. -/
theorem gecuLoop_dedup (ms : List Str) :
    ∀ seen ans, gecuLoop seen ans ms = gecuLoop seen ans (dedupFirstByCacheId seen ms) := by
  induction ms with
  | nil =>
    intro seen ans
    rfl
  | cons g rest ih =>
    intro seen ans
    cases h : cachePatSearch ((upatSub (g.length + 1) g).length + 1)
        (upatSub (g.length + 1) g) with
    | none =>
      simp only [gecuLoop, dedupFirstByCacheId, matchCacheId, h, Option.map_none']
    | some p =>
      obtain ⟨cid, src⟩ := p
      by_cases hseen : seen.contains cid = true
      · simp only [gecuLoop, dedupFirstByCacheId, matchCacheId, h, Option.map_some',
          hseen, if_true]
        exact ih seen ans
      · simp only [gecuLoop, dedupFirstByCacheId, matchCacheId, h, Option.map_some',
          hseen, if_false]
        exact ih _ _

/-- Claim C6: in the raw-text scan, when several escaped cache-URL captures
share a cache identifier only the first one in document order contributes to
the resulting map — the extraction equals the extraction of the
first-occurrence-deduplicated capture list. -/
theorem google_cache_dedup_first_occurrence_wins (raw : Str) :
    google_extract_cache_urls raw =
      gecuLoop [] [] (dedupFirstByCacheId [] (googlePatFind (raw.length + 1) raw)) := by
  unfold google_extract_cache_urls
  exact gecuLoop_dedup _ [] []

/-- Claim C7: the wayback availability lookup returns the closest snapshot URL
with every `http:` rewritten to `https:` exactly when the parsed response
carries `archived_snapshots.closest` with a truthy `available` and a string
`url`; in every other case — missing keys, non-object steps, falsy
`available`, non-string `url` — it signals absence and logs the full
response, never raising. -/
theorem wayback_availability_dispatch (data : JVal) :
    (∀ u, availableSnapshot data u →
      wayback_machine_cached_url data =
        (some (pyReplace (lit "http:") (lit "https:") u), []))
    ∧ ((∀ u, ¬ availableSnapshot data u) →
      wayback_machine_cached_url data = (none, [data])) := by
  constructor
  · rintro u ⟨snaps, closest, av, h1, h2, h3, h4, h5⟩
    simp [wayback_machine_cached_url, waybackTry, h1, h2, h3, h4, h5]
  · intro hno
    cases h1 : jGet data (lit "archived_snapshots") with
    | error e => simp [wayback_machine_cached_url, waybackTry, h1]
    | ok snaps =>
      cases h2 : jGet snaps (lit "closest") with
      | error e => simp [wayback_machine_cached_url, waybackTry, h1, h2]
      | ok closest =>
        cases h3 : jGet closest (lit "available") with
        | error e => simp [wayback_machine_cached_url, waybackTry, h1, h2, h3]
        | ok av =>
          by_cases h4 : jTruthy av = true
          · cases h5 : jGet closest (lit "url") with
            | error e =>
              simp [wayback_machine_cached_url, waybackTry, h1, h2, h3, h4, h5]
            | ok v =>
              cases v with
              | jstr s =>
                exact absurd ⟨snaps, closest, av, h1, h2, h3, h4, h5⟩ (hno s)
              | jnull =>
                simp [wayback_machine_cached_url, waybackTry, h1, h2, h3, h4, h5]
              | jbool b =>
                simp [wayback_machine_cached_url, waybackTry, h1, h2, h3, h4, h5]
              | jnum q =>
                simp [wayback_machine_cached_url, waybackTry, h1, h2, h3, h4, h5]
              | jarr xs =>
                simp [wayback_machine_cached_url, waybackTry, h1, h2, h3, h4, h5]
              | jobj fs =>
                simp [wayback_machine_cached_url, waybackTry, h1, h2, h3, h4, h5]
          · simp [wayback_machine_cached_url, waybackTry, h1, h2, h3, h4]

/-- Witness for claim C7: the spec's crafted response yields the snapshot URL
with its scheme forced to https, and a shape-mismatched response (a bare JSON
null) yields absence plus the logged response. -/
theorem wayback_availability_dispatch_witness :
    wayback_machine_cached_url waybackAvailSample =
      (some (lit "https://web.archive.org/abc"), [])
    ∧ wayback_machine_cached_url JVal.jnull = (none, [JVal.jnull]) := by
  constructor
  · have h := (wayback_availability_dispatch waybackAvailSample).1
      (lit "http://web.archive.org/abc") ⟨_, _, _, rfl, rfl, rfl, rfl, rfl⟩
    exact h.trans (by rfl)
  · refine (wayback_availability_dispatch JVal.jnull).2 ?_
    rintro u ⟨snaps, closest, av, h1, _⟩
    simp [jGet] at h1

/-- Applying `partition(':')` to a wayback-tagged URL splits off the tag. -/
theorem partition_wayback_tag (r : Str) :
    pyPartition2 ':' (lit "wayback:" ++ r) = (lit "wayback", r) := rfl

/-- Claim C8: `resolve_url` dispatches on the text before the first colon —
an unrecognized prefix returns the input unchanged; a wayback-tagged
root-relative remainder is rewritten to the suffix from the first embedded
`http:`/`https:` occurrence when one exists, and is prefixed with the fixed
archive host otherwise. -/
theorem resolve_url_dispatch :
    (∀ u, (pyPartition2 ':' u).1 ≠ lit "bing" →
      (pyPartition2 ':' u).1 ≠ lit "wayback" → resolve_url u = u)
    ∧ (∀ r i, headIs '/' r = true → reSearchHttp (r.length + 1) r = some i →
      resolve_url (lit "wayback:" ++ r) = r.drop i)
    ∧ (∀ r, headIs '/' r = true → reSearchHttp (r.length + 1) r = none →
      resolve_url (lit "wayback:" ++ r) = lit "https://web.archive.org" ++ r) := by
  refine ⟨?_, ?_, ?_⟩
  · intro u h1 h2
    simp only [resolve_url]
    rw [if_neg h1, if_neg h2]
  · intro r i h1 h2
    simp [resolve_url, partition_wayback_tag, wayback_url_processor, h1, h2]
    intro hc
    exact absurd hc (by decide)
  · intro r h1 h2
    simp [resolve_url, partition_wayback_tag, wayback_url_processor, h1, h2]
    intro hc
    exact absurd hc (by decide)

/-- Witness for claim C8, at the spec's two concrete examples plus the
no-embedded-URL case. -/
theorem resolve_url_dispatch_witness :
    resolve_url (lit "plainscheme:/some/path") = lit "plainscheme:/some/path"
    ∧ resolve_url (lit "wayback:/web/20200101000000/http://example.com") =
        lit "http://example.com"
    ∧ resolve_url (lit "wayback:/abc") = lit "https://web.archive.org/abc" := by
  refine ⟨?_, ?_, ?_⟩
  · exact resolve_url_dispatch.1 (lit "plainscheme:/some/path")
      (by decide) (by decide)
  · have h := resolve_url_dispatch.2.1 (lit "/web/20200101000000/http://example.com")
      20 rfl (by decide)
    exact h.trans (by decide)
  · exact resolve_url_dispatch.2.2 (lit "/abc") rfl (by decide)

/-- A bad anchor anywhere in the DDG anchor list aborts the whole result
loop with the propagated `KeyError`. -/
theorem ddg_items_error_of_bad_anchor :
    ∀ l : List Elem,
      (∃ a ∈ l, ddg_href ((getAttr a (lit "href")).getD []) = .error ()) →
      ddg_items l = .error () := by
  intro l
  induction l with
  | nil =>
    rintro ⟨a, ha, _⟩
    exact absurd ha (List.not_mem_nil a)
  | cons x rest ih =>
    rintro ⟨a, ha, herr⟩
    rcases List.mem_cons.mp ha with h | h
    · subst h
      simp [ddg_items, herr]
    · cases hx : ddg_href ((getAttr x (lit "href")).getD []) with
      | error e =>
        cases e
        simp [ddg_items, hx]
      | ok u =>
        have hrest : ddg_items rest = .error () := ih ⟨a, h, herr⟩
        simp [ddg_items, hx, hrest]

/-- Claim C9: for a root-relative href, `ddg_href` returns the
percent-decoded first value of the `uddg` query parameter and raises a
`KeyError` when that parameter is absent, which aborts the whole DDG
extraction instead of skipping the anchor; any other href passes through
unchanged. -/
theorem ddg_href_uddg_dispatch :
    (∀ u, headIs '/' u = false → ddg_href u = .ok u)
    ∧ (∀ u v vs, headIs '/' u = true →
      pyDictGet (parseQs (pyPartition2 '?' u).2) (lit "uddg") = some (v :: vs) →
      ddg_href u = .ok v)
    ∧ (∀ u, headIs '/' u = true →
      pyDictGet (parseQs (pyPartition2 '?' u).2) (lit "uddg") = none →
      ddg_href u = .error ())
    ∧ (∀ root, (∃ a ∈ ddgAnchors root,
        ddg_href ((getAttr a (lit "href")).getD []) = .error ()) →
      ddg_search_results root = .error ()) := by
  refine ⟨?_, ?_, ?_, ?_⟩
  · intro u h
    simp [ddg_href, h]
  · intro u v vs h1 h2
    simp [ddg_href, h1, h2]
  · intro u h1 h2
    simp [ddg_href, h1, h2]
  · intro root h
    have hitems := ddg_items_error_of_bad_anchor _ h
    simp [ddg_search_results, hitems]

/-- Witness for claim C9: passthrough of an absolute href, percent-decoding
of a `uddg` value, the `KeyError` on a root-relative href without `uddg`, and
the resulting abort of a whole DDG page containing such an anchor. -/
theorem ddg_href_uddg_dispatch_witness :
    ddg_href (lit "https://a.example/x") = .ok (lit "https://a.example/x")
    ∧ ddg_href (lit "/l/?uddg=https%3A%2F%2Fexample.com%2Fa+b") =
        .ok (lit "https://example.com/a b")
    ∧ ddg_href (lit "/l/?kh=-1") = .error ()
    ∧ ddg_search_results ddgBadDoc = .error () := by
  refine ⟨?_, ?_, ?_, ?_⟩
  · exact ddg_href_uddg_dispatch.1 (lit "https://a.example/x") rfl
  · exact ddg_href_uddg_dispatch.2.1 (lit "/l/?uddg=https%3A%2F%2Fexample.com%2Fa+b")
      (lit "https://example.com/a b") [] rfl rfl
  · exact ddg_href_uddg_dispatch.2.2.1 (lit "/l/?kh=-1") rfl rfl
  · refine ddg_href_uddg_dispatch.2.2.2 ddgBadDoc ⟨ddgBadAnchor, ?_, rfl⟩
    have h : ddgAnchors ddgBadDoc = [ddgBadAnchor] := rfl
    rw [h]
    exact List.mem_singleton.mpr rfl

/-- Claim C10: the `replace('http:', 'https:')` of the wayback lookup rewrites
every occurrence, so a snapshot URL that embeds the original page URL after
the timestamp has the embedded scheme rewritten as well. -/
theorem wayback_forces_https_on_every_occurrence :
    wayback_machine_cached_url waybackEmbeddedSample =
      (some (lit "https://web.archive.org/web/2020/https://example.com"), []) := rfl

end SearchEngines
